import Mathlib

/-!
Verification of the Conversational Insight Generator service (src/app.py).

The service exposes `POST /analyze_call`: it validates the transcript,
calls an LLM with a fixed system prompt and a response schema, retries the
call up to 3 total attempts, inserts the parsed insight into the
`call_records` table with a parameterized SQL statement, and returns the
stored record id together with the insight.

External effects (the LLM provider, the asyncpg pool) are modelled as
oracles passed in explicitly; the pure control flow of `generate_insights`
and `analyze_call` is embedded faithfully from the source.
-/

namespace InsightService

/-- Sentiment enumeration: the `Literal["negative", "neutral", "positive"]`
type used for `sentiment_start` and `sentiment_end` in `CallInsight`
(src/app.py lines 30-31). -/
inductive Sentiment
  | negative
  | neutral
  | positive
deriving DecidableEq, Repr

/-- String form of a sentiment, as it appears in JSON and as it is bound
into the SQL insert. -/
def Sentiment.toStr : Sentiment → String
  | .negative => "negative"
  | .neutral => "neutral"
  | .positive => "positive"

/-- A JSON-like scalar value, used both for raw LLM output objects and for
SQL bind parameters. -/
inductive JsonValue
  | str (s : String)
  | int (n : Int)
  | bool (b : Bool)
  | null
deriving DecidableEq, Repr

/-- The `CallInsight` pydantic model (src/app.py lines 24-35): the rich
11-field variant. `agent_performance_rating` is declared as a plain `int`
in the source, with no range annotation. -/
structure CallInsight where
  primary_purpose : String
  objective_met : Bool
  key_outcome : String
  customer_intent : String
  non_payment_reason : Option String
  sentiment_start : Sentiment
  sentiment_end : Sentiment
  hardship_flag : Bool
  agent_performance_rating : Int
  action_required : Bool
  summary : String
deriving DecidableEq, Repr

/-- The `TranscriptInput` request model (src/app.py lines 37-38). -/
structure TranscriptInput where
  transcript : String
deriving DecidableEq, Repr

/-- The `AnalyzeCallResponse` response envelope (src/app.py lines 40-42). -/
structure AnalyzeCallResponse where
  record_id : Int
  insights : CallInsight
deriving DecidableEq, Repr

/-- A FastAPI `HTTPException`, carrying a status code and a detail
message. -/
structure HTTPException where
  status_code : Nat
  detail : String
deriving DecidableEq, Repr

/-! ### Pydantic-style validation of raw JSON objects -/

/-- A raw JSON object: an association list of field names to values. -/
def RawObject : Type := List (String × JsonValue)

/-- Look up a field of a raw JSON object (first occurrence). -/
def lookupField (obj : RawObject) (k : String) : Option JsonValue :=
  (List.find? (fun p => p.1 == k) obj).map Prod.snd

/-- Coerce a JSON value to a string field. -/
def asString : JsonValue → Option String
  | .str s => some s
  | _ => none

/-- Coerce a JSON value to a boolean field. -/
def asBool : JsonValue → Option Bool
  | .bool b => some b
  | _ => none

/-- Coerce a JSON value to an integer field. -/
def asInt : JsonValue → Option Int
  | .int n => some n
  | _ => none

/-- Coerce a JSON value to one of the sentiment literals. -/
def asSentiment : JsonValue → Option Sentiment
  | .str s =>
      if s = "negative" then some Sentiment.negative
      else if s = "neutral" then some Sentiment.neutral
      else if s = "positive" then some Sentiment.positive
      else none
  | _ => none

/-- Coerce an optional occurrence of a field to `Optional[str]` with
default `None`: absent or JSON null yields `none`, a string yields
`some`, any other value is a validation failure. -/
def asOptString : Option JsonValue → Option (Option String)
  | none => some none
  | some .null => some none
  | some (.str s) => some (some s)
  | some _ => none

/-- Embedding of `CallInsight.model_validate` (invoked at src/app.py
line 144): validates a raw JSON object against the `CallInsight` model.
Every field except `non_payment_reason` is required; `non_payment_reason`
defaults to `None` when absent. -/
def model_validate (obj : RawObject) : Option CallInsight := do
  let pp ← lookupField obj "primary_purpose" >>= asString
  let om ← lookupField obj "objective_met" >>= asBool
  let ko ← lookupField obj "key_outcome" >>= asString
  let ci ← lookupField obj "customer_intent" >>= asString
  let npr ← asOptString (lookupField obj "non_payment_reason")
  let ss ← lookupField obj "sentiment_start" >>= asSentiment
  let se ← lookupField obj "sentiment_end" >>= asSentiment
  let hf ← lookupField obj "hardship_flag" >>= asBool
  let apr ← lookupField obj "agent_performance_rating" >>= asInt
  let ar ← lookupField obj "action_required" >>= asBool
  let sm ← lookupField obj "summary" >>= asString
  pure ⟨pp, om, ko, ci, npr, ss, se, hf, apr, ar, sm⟩

/-- The canonical raw JSON form of a `CallInsight` value, one key per
model field in declaration order. -/
def toObj (c : CallInsight) : RawObject :=
  [ ("primary_purpose", .str c.primary_purpose),
    ("objective_met", .bool c.objective_met),
    ("key_outcome", .str c.key_outcome),
    ("customer_intent", .str c.customer_intent),
    ("non_payment_reason",
      match c.non_payment_reason with
      | none => .null
      | some s => .str s),
    ("sentiment_start", .str c.sentiment_start.toStr),
    ("sentiment_end", .str c.sentiment_end.toStr),
    ("hardship_flag", .bool c.hardship_flag),
    ("agent_performance_rating", .int c.agent_performance_rating),
    ("action_required", .bool c.action_required),
    ("summary", .str c.summary) ]

/-- Remove a field from a raw JSON object. -/
def objDrop (obj : RawObject) (k : String) : RawObject :=
  List.filter (fun p => p.1 != k) obj

/-- The ten required field names of `CallInsight`: every field except the
optional `non_payment_reason`. -/
def requiredFieldNames : List String :=
  [ "primary_purpose", "objective_met", "key_outcome", "customer_intent",
    "sentiment_start", "sentiment_end", "hardship_flag",
    "agent_performance_rating", "action_required", "summary" ]

/-- All eleven field names of the `CallInsight` model, in declaration
order (src/app.py lines 25-35). -/
def callInsightFields : List String :=
  [ "primary_purpose", "objective_met", "key_outcome", "customer_intent",
    "non_payment_reason", "sentiment_start", "sentiment_end",
    "hardship_flag", "agent_performance_rating", "action_required",
    "summary" ]

/-- Embedding of Python's `str.strip()`: drop whitespace characters from
both ends of the string. -/
def pyStrip (s : String) : String :=
  String.mk
    (List.rdropWhile Char.isWhitespace
      (List.dropWhile Char.isWhitespace s.data))

/-! ### Insight extraction client (`generate_insights`, src/app.py 123-150) -/

/-- What the provider's response `parsed` attribute holds on a successful
network call: either an already-typed `CallInsight` or a raw JSON object
that must still be validated (src/app.py line 144). -/
inductive Parsed
  | typed (c : CallInsight)
  | raw (obj : RawObject)

/-- Oracle for one LLM call: either the call raises (network error,
malformed output, ...) with an error message, or it returns a parsed
payload. -/
def LLMOracle : Type := Nat → Except String Parsed

/-- Outcome of one iteration of the retry loop body (src/app.py 132-147):
a raised exception is an error, a typed payload is returned as is, and a
raw payload is validated with `CallInsight.model_validate` — a validation
failure raises and is caught by the `except` clause, so it is an error
for this attempt. -/
def attemptResult : Except String Parsed → Except String CallInsight
  | .error e => .error e
  | .ok (.typed c) => .ok c
  | .ok (.raw obj) =>
      match model_validate obj with
      | some c => .ok c
      | none => .error "CallInsight validation failed"

/-- String shown for `last_error` in the 500 detail: `None` when no
attempt ran (unreachable with a positive attempt budget). -/
def lastErrorStr : Option String → String
  | none => "None"
  | some e => e

/-- The retry loop of `generate_insights` (src/app.py 131-150):
`attempt` is the current attempt index, `fuel` the number of attempts
still allowed, `lastError` the last caught exception. Returns the result
(the first successful attempt's insight, or a 500 `HTTPException` whose
detail carries the last error) together with the number of LLM calls
made. -/
def generateLoop (oracle : LLMOracle) :
    Nat → Nat → Option String → Except HTTPException CallInsight × Nat
  | _, 0, lastError =>
      (.error ⟨500, "LLM generation failed: " ++ lastErrorStr lastError⟩, 0)
  | attempt, fuel + 1, _lastError =>
      match attemptResult (oracle attempt) with
      | .ok c => (.ok c, 1)
      | .error e =>
          let r := generateLoop oracle (attempt + 1) fuel (some e)
          (r.1, r.2 + 1)

/-- Embedding of `generate_insights` (src/app.py 123-150): reject an
empty-after-strip transcript with a 422 before any LLM call; otherwise
run the retry loop with `retries = 2`, i.e. 3 total attempts. Also
returns the number of LLM calls made. -/
def generate_insights (transcript : String) (oracle : LLMOracle) :
    Except HTTPException CallInsight × Nat :=
  if pyStrip transcript = "" then
    (.error ⟨422, "Transcript cannot be empty"⟩, 0)
  else
    generateLoop oracle 0 (2 + 1) none

/-! ### Record store -/

/-- A SQL statement submitted to the store: the statement text plus the
positional bind parameters. -/
structure SQLQuery where
  text : String
  params : List JsonValue
deriving DecidableEq, Repr

/-- The SQL text of the insert statement, a fixed literal in the source
(src/app.py 174-191). -/
def insertSQL : String :=
  "INSERT INTO call_records ( transcript, primary_purpose, objective_met, key_outcome, customer_intent, non_payment_reason, sentiment_start, sentiment_end, hardship_flag, agent_performance_rating, action_required, summary ) VALUES ($1,$2,$3,$4,$5,$6,$7,$8,$9,$10,$11,$12) RETURNING id;"

/-- The twelve bind parameters of the insert, in the order they are
passed to `conn.fetchval` (src/app.py 192-203). -/
def insertParams (transcript : String) (i : CallInsight) : List JsonValue :=
  [ .str transcript,
    .str i.primary_purpose,
    .bool i.objective_met,
    .str i.key_outcome,
    .str i.customer_intent,
    (match i.non_payment_reason with
     | none => .null
     | some s => .str s),
    .str i.sentiment_start.toStr,
    .str i.sentiment_end.toStr,
    .bool i.hardship_flag,
    .int i.agent_performance_rating,
    .bool i.action_required,
    .str i.summary ]

/-- The query `analyze_call` submits to the store for a given trimmed
transcript and insight. -/
def mkInsertQuery (transcript : String) (i : CallInsight) : SQLQuery :=
  ⟨insertSQL, insertParams transcript i⟩

/-- Oracle for the store's execution of a query: a raised database
exception or the value of `RETURNING id`. -/
def StoreOracle : Type := SQLQuery → Except String Int

/-! ### Request handler (`analyze_call`, src/app.py 157-207) -/

/-- The process-wide environment an `analyze_call` request runs in:
whether the shared pool handle is set, the LLM oracle, and the store
oracle. -/
structure Env where
  dbPoolInitialized : Bool
  llmOracle : LLMOracle
  storeOracle : StoreOracle

/-- Observable outcome of one `analyze_call` request: the HTTP result,
the number of LLM calls made, and the queries submitted to the store. -/
structure CallTrace where
  result : Except HTTPException AnalyzeCallResponse
  llmCalls : Nat
  storeQueries : List SQLQuery

/-- Embedding of the `analyze_call` handler (src/app.py 157-207):
1. 500 if the pool handle is unset;
2. trim the transcript, 422 if empty;
3. call `generate_insights` on the trimmed transcript, propagating its
   `HTTPException` unchanged;
4. submit the parameterized insert; an exception from the driver
   propagates out of the handler and surfaces as a 500;
5. on success return `AnalyzeCallResponse` with the returned id and the
   insight. -/
def analyze_call (payload : TranscriptInput) (env : Env) : CallTrace :=
  if env.dbPoolInitialized = false then
    ⟨.error ⟨500, "Database pool not initialized."⟩, 0, []⟩
  else
    let transcript := pyStrip payload.transcript
    if transcript = "" then
      ⟨.error ⟨422, "Transcript cannot be empty."⟩, 0, []⟩
    else
      match generate_insights transcript env.llmOracle with
      | (.error e, n) => ⟨.error e, n, []⟩
      | (.ok insights, n) =>
          let q := mkInsertQuery transcript insights
          match env.storeOracle q with
          | .error e => ⟨.error ⟨500, e⟩, n, [q]⟩
          | .ok rid => ⟨.ok ⟨rid, insights⟩, n, [q]⟩

/-! ### Schema setup and prompt field definitions -/

/-- Columns of the `call_records` table exactly as declared in the DDL
(src/app.py 89-103): the serial primary key, the transcript, and one
column per `CallInsight` field. -/
def callRecordsColumns : List String :=
  [ "id", "transcript",
    "primary_purpose", "objective_met", "key_outcome", "customer_intent",
    "non_payment_reason", "sentiment_start", "sentiment_end",
    "hardship_flag", "agent_performance_rating", "action_required",
    "summary" ]

/-- Field names listed under `Field definitions:` in `SYSTEM_PROMPT`
(src/app.py 59-74), in the order they appear in the prompt text. -/
def promptFieldDefinitions : List String :=
  [ "primary_purpose", "objective_met", "key_outcome", "customer_intent",
    "non_payment_reason", "sentiment_start", "sentiment_end",
    "hardship_flag", "agent_performance_rating", "action_required",
    "summary" ]

/-- State of the relational store as far as schema setup is concerned:
the `call_records` table is either absent or present with its column
list. -/
structure StoreState where
  callRecordsTable : Option (List String)
deriving DecidableEq, Repr

/-- Semantics of `CREATE TABLE` with an optional `IF NOT EXISTS` guard:
without the guard, creating an existing table is an error; with it, the
statement is a no-op on an existing table. -/
def createTable (ifNotExists : Bool) (cols : List String)
    (s : StoreState) : Except String StoreState :=
  match s.callRecordsTable with
  | some _ =>
      if ifNotExists then .ok s
      else .error "relation call_records already exists"
  | none => .ok ⟨some cols⟩

/-- The schema-ensure operation run at startup (src/app.py 87-105):
`CREATE TABLE IF NOT EXISTS call_records (...)`. -/
def ensureSchema (s : StoreState) : Except String StoreState :=
  createTable true callRecordsColumns s

/-- Run `ensureSchema` `n` times in sequence, propagating any error. -/
def ensureSchemaN : Nat → StoreState → Except String StoreState
  | 0, s => .ok s
  | n + 1, s =>
      match ensureSchema s with
      | .error e => .error e
      | .ok s' => ensureSchemaN n s'

/-! ### Process shutdown (`lifespan` after `yield`, src/app.py 110-116) -/

/-- The two release actions performed at shutdown. -/
inductive ShutdownEvent
  | closeDbPool
  | closeLlmClient
deriving DecidableEq, Repr

/-- Embedding of the shutdown section of `lifespan` (src/app.py
110-116): first `if db_pool: await db_pool.close()`, then
`if genai_client_aio: await genai_client_aio.aclose()`. Each release is
guarded independently by the presence of its handle, so a missing handle
skips only its own release. Returns the sequence of release actions
performed. -/
def lifespanShutdown (dbPoolSet llmClientSet : Bool) : List ShutdownEvent :=
  (if dbPoolSet then [ShutdownEvent.closeDbPool] else []) ++
  (if llmClientSet then [ShutdownEvent.closeLlmClient] else [])

/-! ### Sample values used by witnesses and counterexamples -/

/-- A concrete well-formed insight used to instantiate theorems. -/
def sampleInsight : CallInsight :=
  { primary_purpose := "payment reminder"
    objective_met := true
    key_outcome := "Customer promised payment next Friday"
    customer_intent := "agreeing to pay later"
    non_payment_reason := some "salary delay"
    sentiment_start := Sentiment.neutral
    sentiment_end := Sentiment.positive
    hardship_flag := false
    agent_performance_rating := 4
    action_required := true
    summary := "Customer agreed to pay next Friday after a salary delay." }

/-- LLM oracle whose first two calls raise and whose third returns a
typed insight. -/
def oracleFailTwice : LLMOracle := fun n =>
  if n == 2 then .ok (.typed sampleInsight)
  else .error ("boom " ++ toString n)

/-- LLM oracle all of whose calls raise. -/
def oracleAllFail : LLMOracle := fun n => .error ("boom " ++ toString n)

/-- LLM oracle that succeeds immediately with a typed insight. -/
def oracleOk : LLMOracle := fun _ => .ok (.typed sampleInsight)

/-- Store oracle that accepts every insert with id 7. -/
def storeOk : StoreOracle := fun _ => .ok 7

/-- Store oracle that raises on every insert. -/
def storeDown : StoreOracle := fun _ => .error "connection refused"

/-! ### Helper lemmas -/

/-- Stripping is idempotent: stripping an already-stripped string changes
nothing. -/
theorem pyStrip_idem (s : String) : pyStrip (pyStrip s) = pyStrip s := by
  unfold pyStrip
  congr 1
  have h1 : List.dropWhile Char.isWhitespace
      (List.rdropWhile Char.isWhitespace
        (List.dropWhile Char.isWhitespace s.data)) =
      List.rdropWhile Char.isWhitespace
        (List.dropWhile Char.isWhitespace s.data) := by
    rw [List.dropWhile_eq_self_iff]
    intro hl
    have hpre := List.rdropWhile_prefix Char.isWhitespace
      (List.dropWhile Char.isWhitespace s.data)
    have hlen : 0 < (List.dropWhile Char.isWhitespace s.data).length :=
      lt_of_lt_of_le hl hpre.length_le
    have hget := hpre.getElem (by simpa using hl)
    simp only [List.get_eq_getElem]
    rw [hget]
    have := List.dropWhile_get_zero_not Char.isWhitespace s.data hlen
    simpa using this
  rw [h1, List.rdropWhile_idempotent]

/-- Validation inverts the canonical JSON form of an insight. -/
theorem model_validate_toObj (c : CallInsight) :
    model_validate (toObj c) = some c := by
  obtain ⟨pp, om, ko, ci, npr, ss, se, hf, apr, ar, sm⟩ := c
  cases ss <;> cases se <;> cases npr <;> rfl

/-- The retry loop never makes more calls than its attempt budget. -/
theorem generateLoop_count_le (oracle : LLMOracle) :
    ∀ (fuel attempt : Nat) (lastError : Option String),
      (generateLoop oracle attempt fuel lastError).2 ≤ fuel := by
  intro fuel
  induction fuel with
  | zero => intro attempt lastError; simp [generateLoop]
  | succ n ih =>
      intro attempt lastError
      unfold generateLoop
      cases attemptResult (oracle attempt) with
      | ok c => simp
      | error e => simpa using ih (attempt + 1) (some e)

/-- A non-degenerate request (pool set, transcript non-empty after
stripping) reduces to the extraction-then-insert pipeline on the
stripped transcript. -/
theorem analyze_call_pipeline (payload : TranscriptInput) (env : Env)
    (hdb : env.dbPoolInitialized = true)
    (ht : pyStrip payload.transcript ≠ "") :
    analyze_call payload env =
      match generate_insights (pyStrip payload.transcript) env.llmOracle with
      | (.error e, n) => ⟨.error e, n, []⟩
      | (.ok insights, n) =>
          match env.storeOracle (mkInsertQuery (pyStrip payload.transcript) insights) with
          | .error e => ⟨.error ⟨500, e⟩, n, [mkInsertQuery (pyStrip payload.transcript) insights]⟩
          | .ok rid => ⟨.ok ⟨rid, insights⟩, n, [mkInsertQuery (pyStrip payload.transcript) insights]⟩ := by
  unfold analyze_call
  rw [hdb]
  simp only [Bool.true_eq_false, if_false, if_neg ht]

/-- The extraction client on an already-stripped non-empty transcript
runs the retry loop with a 3-attempt budget. -/
theorem generate_insights_stripped (t : String) (oracle : LLMOracle)
    (ht : pyStrip t ≠ "") :
    generate_insights (pyStrip t) oracle = generateLoop oracle 0 3 none := by
  unfold generate_insights
  rw [pyStrip_idem, if_neg ht]

/-- Unfolding of the retry loop at an exhausted budget. -/
theorem generateLoop_zero (oracle : LLMOracle) (attempt : Nat)
    (le : Option String) :
    generateLoop oracle attempt 0 le =
      (.error ⟨500, "LLM generation failed: " ++ lastErrorStr le⟩, 0) := rfl

/-- Unfolding of the retry loop at a positive budget. -/
theorem generateLoop_succ (oracle : LLMOracle) (attempt fuel : Nat)
    (le : Option String) :
    generateLoop oracle attempt (fuel + 1) le =
      match attemptResult (oracle attempt) with
      | .ok c => (.ok c, 1)
      | .error e =>
          let r := generateLoop oracle (attempt + 1) fuel (some e)
          (r.1, r.2 + 1) := rfl

/-- Three-attempt run where the first two attempts fail and the third
succeeds: the loop returns the third attempt's insight after exactly
three calls. -/
theorem generateLoop_three_third_ok (oracle : LLMOracle) (e1 e2 : String)
    (c : CallInsight)
    (h0 : attemptResult (oracle 0) = .error e1)
    (h1 : attemptResult (oracle 1) = .error e2)
    (h2 : attemptResult (oracle 2) = .ok c) :
    generateLoop oracle 0 3 none = (.ok c, 3) := by
  show generateLoop oracle 0 (2 + 1) none = _
  rw [generateLoop_succ, h0]
  dsimp only
  rw [show (2 : Nat) = 1 + 1 from rfl, generateLoop_succ]
  norm_num
  rw [h1]
  dsimp only
  rw [show (1 : Nat) = 0 + 1 from rfl, generateLoop_succ]
  norm_num
  rw [h2]
  simp

/-- Three-attempt run where every attempt fails: the loop returns a 500
carrying the third (last) error after exactly three calls. -/
theorem generateLoop_three_all_fail (oracle : LLMOracle) (e1 e2 e3 : String)
    (h0 : attemptResult (oracle 0) = .error e1)
    (h1 : attemptResult (oracle 1) = .error e2)
    (h2 : attemptResult (oracle 2) = .error e3) :
    generateLoop oracle 0 3 none =
      (.error ⟨500, "LLM generation failed: " ++ e3⟩, 3) := by
  show generateLoop oracle 0 (2 + 1) none = _
  rw [generateLoop_succ, h0]
  dsimp only
  rw [show (2 : Nat) = 1 + 1 from rfl, generateLoop_succ]
  norm_num
  rw [h1]
  dsimp only
  rw [show (1 : Nat) = 0 + 1 from rfl, generateLoop_succ]
  norm_num
  rw [h2]
  dsimp only
  rw [generateLoop_zero]
  simp [lastErrorStr]

/-- A successful extraction forces the transcript to be non-empty after
stripping. -/
theorem nonempty_of_generate_ok (t : String) (oracle : LLMOracle)
    (c : CallInsight) (n : Nat)
    (hgen : generate_insights (pyStrip t) oracle = (.ok c, n)) :
    pyStrip t ≠ "" := by
  intro h
  unfold generate_insights at hgen
  rw [pyStrip_idem, if_pos h] at hgen
  simp at hgen

end InsightService

namespace InsightService

/-! ## Claim theorems -/

/-- C1: the extraction makes at most 3 total LLM attempts; if attempts 1
and 2 fail but attempt 3 succeeds (and the insert succeeds), the
endpoint returns 200 with the attempt-3 result; if all 3 attempts fail,
the endpoint fails with a 500 whose message carries the last underlying
error, the store is never called, and no partial or default insight is
returned. -/
theorem retry_policy_three_attempts :
    (∀ (payload : TranscriptInput) (env : Env),
        (analyze_call payload env).llmCalls ≤ 3) ∧
    (∀ (t : String) (env : Env),
        env.dbPoolInitialized = true → pyStrip t ≠ "" →
        (∀ (e1 e2 : String) (c : CallInsight) (rid : Int),
            attemptResult (env.llmOracle 0) = .error e1 →
            attemptResult (env.llmOracle 1) = .error e2 →
            attemptResult (env.llmOracle 2) = .ok c →
            env.storeOracle (mkInsertQuery (pyStrip t) c) = .ok rid →
            (analyze_call ⟨t⟩ env).result = .ok ⟨rid, c⟩ ∧
            (analyze_call ⟨t⟩ env).llmCalls = 3) ∧
        (∀ (e1 e2 e3 : String),
            attemptResult (env.llmOracle 0) = .error e1 →
            attemptResult (env.llmOracle 1) = .error e2 →
            attemptResult (env.llmOracle 2) = .error e3 →
            (analyze_call ⟨t⟩ env).result =
              .error ⟨500, "LLM generation failed: " ++ e3⟩ ∧
            (analyze_call ⟨t⟩ env).storeQueries = [] ∧
            (analyze_call ⟨t⟩ env).llmCalls = 3)) := by
  constructor
  · intro payload env
    cases hb : env.dbPoolInitialized with
    | false =>
        unfold analyze_call
        rw [hb]
        simp
    | true =>
        by_cases ht : pyStrip payload.transcript = ""
        · unfold analyze_call
          rw [hb]
          simp [ht]
        · rw [analyze_call_pipeline payload env hb ht,
            generate_insights_stripped payload.transcript env.llmOracle ht]
          have hle := generateLoop_count_le env.llmOracle 3 0 none
          rcases hg : generateLoop env.llmOracle 0 3 none with ⟨res, n⟩
          rw [hg] at hle
          cases res with
          | error e => simpa using hle
          | ok c =>
              cases hs : env.storeOracle
                  (mkInsertQuery (pyStrip payload.transcript) c) with
              | error e => simpa [hs] using hle
              | ok rid => simpa [hs] using hle
  · intro t env hdb ht
    have hpipe := analyze_call_pipeline ⟨t⟩ env hdb ht
    constructor
    · intro e1 e2 c rid h0 h1 h2 hs
      have hg : generate_insights (pyStrip t) env.llmOracle = (.ok c, 3) := by
        rw [generate_insights_stripped t env.llmOracle ht]
        exact generateLoop_three_third_ok env.llmOracle e1 e2 c h0 h1 h2
      have hcall : analyze_call ⟨t⟩ env =
          ⟨.ok ⟨rid, c⟩, 3, [mkInsertQuery (pyStrip t) c]⟩ := by
        rw [hpipe]
        dsimp only
        rw [hg]
        dsimp only
        rw [hs]
      rw [hcall]
      exact ⟨rfl, rfl⟩
    · intro e1 e2 e3 h0 h1 h2
      have hg : generate_insights (pyStrip t) env.llmOracle =
          (.error ⟨500, "LLM generation failed: " ++ e3⟩, 3) := by
        rw [generate_insights_stripped t env.llmOracle ht]
        exact generateLoop_three_all_fail env.llmOracle e1 e2 e3 h0 h1 h2
      have hcall : analyze_call ⟨t⟩ env =
          ⟨.error ⟨500, "LLM generation failed: " ++ e3⟩, 3, []⟩ := by
        rw [hpipe]
        dsimp only
        rw [hg]
      rw [hcall]
      exact ⟨rfl, rfl, rfl⟩

/-- Environment whose LLM oracle fails twice then succeeds and whose
store accepts inserts. -/
def envFail2 : Env := ⟨true, oracleFailTwice, storeOk⟩

/-- Environment whose LLM oracle always fails and whose store accepts
inserts. -/
def envNoLuck : Env := ⟨true, oracleAllFail, storeOk⟩

/-- Witness for C1: concrete runs exercising both retry scenarios. -/
theorem retry_policy_three_attempts_witness :
    (analyze_call ⟨"hello"⟩ envFail2).llmCalls ≤ 3 ∧
    (analyze_call ⟨"hello"⟩ envFail2).result = .ok ⟨7, sampleInsight⟩ ∧
    (analyze_call ⟨"hello"⟩ envFail2).llmCalls = 3 ∧
    (analyze_call ⟨"hello"⟩ envNoLuck).result =
      .error ⟨500, "LLM generation failed: boom 2"⟩ ∧
    (analyze_call ⟨"hello"⟩ envNoLuck).storeQueries = [] := by
  have h1 := retry_policy_three_attempts.1 ⟨"hello"⟩ envFail2
  have h2 := (retry_policy_three_attempts.2 "hello" envFail2 rfl
      (by decide)).1 "boom 0" "boom 1" sampleInsight 7 rfl rfl rfl rfl
  have h3 := (retry_policy_three_attempts.2 "hello" envNoLuck rfl
      (by decide)).2 "boom 0" "boom 1" "boom 2" rfl rfl rfl
  exact ⟨h1, h2.1, h2.2, h3.1, h3.2.1⟩

/-- C2: when extraction succeeds and the insert succeeds, the response's
`record_id` is exactly the identifier returned by the store and its
`insights` is exactly the `CallInsight` returned by the extraction
client, nothing dropped or altered in between. -/
theorem response_echoes_store_id_and_insight
    (t : String) (env : Env) (c : CallInsight) (n : Nat) (rid : Int)
    (hdb : env.dbPoolInitialized = true)
    (hgen : generate_insights (pyStrip t) env.llmOracle = (.ok c, n))
    (hstore : env.storeOracle (mkInsertQuery (pyStrip t) c) = .ok rid) :
    (analyze_call ⟨t⟩ env).result = .ok ⟨rid, c⟩ ∧
    (analyze_call ⟨t⟩ env).storeQueries = [mkInsertQuery (pyStrip t) c] := by
  have ht : pyStrip t ≠ "" := nonempty_of_generate_ok t env.llmOracle c n hgen
  have hcall : analyze_call ⟨t⟩ env =
      ⟨.ok ⟨rid, c⟩, n, [mkInsertQuery (pyStrip t) c]⟩ := by
    rw [analyze_call_pipeline ⟨t⟩ env hdb ht]
    dsimp only
    rw [hgen]
    dsimp only
    rw [hstore]
  rw [hcall]
  exact ⟨rfl, rfl⟩

/-- Environment whose LLM oracle succeeds immediately and whose store
accepts inserts. -/
def envHappy : Env := ⟨true, oracleOk, storeOk⟩

/-- Witness for C2: a concrete happy-path request. -/
theorem response_echoes_store_id_and_insight_witness :
    (analyze_call ⟨" hello "⟩ envHappy).result = .ok ⟨7, sampleInsight⟩ ∧
    (analyze_call ⟨" hello "⟩ envHappy).storeQueries =
      [mkInsertQuery (pyStrip " hello ") sampleInsight] :=
  response_echoes_store_id_and_insight " hello " envHappy sampleInsight 1 7
    rfl rfl rfl

/-- C3: an empty or whitespace-only transcript is rejected with a 422
and causes zero LLM calls and zero store calls, and the extraction
client itself rejects such input with a 422 before any external call. -/
theorem empty_transcript_rejected_no_calls :
    (∀ (payload : TranscriptInput) (env : Env),
        env.dbPoolInitialized = true →
        pyStrip payload.transcript = "" →
        (analyze_call payload env).result =
          .error ⟨422, "Transcript cannot be empty."⟩ ∧
        (analyze_call payload env).llmCalls = 0 ∧
        (analyze_call payload env).storeQueries = []) ∧
    (∀ (t : String) (oracle : LLMOracle),
        pyStrip t = "" →
        generate_insights t oracle =
          (.error ⟨422, "Transcript cannot be empty"⟩, 0)) := by
  constructor
  · intro payload env hdb ht
    unfold analyze_call
    rw [hdb]
    simp [ht]
  · intro t oracle ht
    unfold generate_insights
    rw [if_pos ht]

/-- Witness for C3: a whitespace-only transcript against a live-looking
environment. -/
theorem empty_transcript_rejected_no_calls_witness :
    ((analyze_call ⟨"   "⟩ envHappy).result =
      .error ⟨422, "Transcript cannot be empty."⟩ ∧
    (analyze_call ⟨"   "⟩ envHappy).llmCalls = 0 ∧
    (analyze_call ⟨"   "⟩ envHappy).storeQueries = []) ∧
    generate_insights "   " oracleOk =
      (.error ⟨422, "Transcript cannot be empty"⟩, 0) :=
  ⟨empty_transcript_rejected_no_calls.1 ⟨"   "⟩ envHappy rfl rfl,
    empty_transcript_rejected_no_calls.2 "   " oracleOk rfl⟩

/-- C4: the response envelope is constructed only after a successful
store write: an insert failure after a successful extraction yields a
500 (never a partial response), and any 200 response implies the insert
it reports was actually submitted and succeeded with that identifier. -/
theorem response_only_after_successful_insert :
    (∀ (t : String) (env : Env) (c : CallInsight) (n : Nat) (e : String),
        env.dbPoolInitialized = true →
        generate_insights (pyStrip t) env.llmOracle = (.ok c, n) →
        env.storeOracle (mkInsertQuery (pyStrip t) c) = .error e →
        (analyze_call ⟨t⟩ env).result = .error ⟨500, e⟩) ∧
    (∀ (payload : TranscriptInput) (env : Env) (resp : AnalyzeCallResponse),
        (analyze_call payload env).result = .ok resp →
        (analyze_call payload env).storeQueries =
          [mkInsertQuery (pyStrip payload.transcript) resp.insights] ∧
        env.storeOracle
            (mkInsertQuery (pyStrip payload.transcript) resp.insights) =
          .ok resp.record_id) := by
  constructor
  · intro t env c n e hdb hgen hstore
    have ht : pyStrip t ≠ "" := nonempty_of_generate_ok t env.llmOracle c n hgen
    have hcall : analyze_call ⟨t⟩ env =
        ⟨.error ⟨500, e⟩, n, [mkInsertQuery (pyStrip t) c]⟩ := by
      rw [analyze_call_pipeline ⟨t⟩ env hdb ht]
      dsimp only
      rw [hgen]
      dsimp only
      rw [hstore]
    rw [hcall]
  · intro payload env resp h
    cases hb : env.dbPoolInitialized with
    | false =>
        unfold analyze_call at h
        rw [hb] at h
        simp at h
    | true =>
        by_cases ht : pyStrip payload.transcript = ""
        · unfold analyze_call at h
          rw [hb] at h
          simp [ht] at h
        · rw [analyze_call_pipeline payload env hb ht] at h ⊢
          rcases hg : generate_insights (pyStrip payload.transcript)
              env.llmOracle with ⟨res, n⟩
          rw [hg] at h
          cases res with
          | error e => simp at h
          | ok c =>
              obtain ⟨rrid, rins⟩ := resp
              dsimp only at h ⊢
              cases hs : env.storeOracle
                  (mkInsertQuery (pyStrip payload.transcript) c) with
              | error e =>
                  rw [hs] at h
                  simp at h
              | ok rid =>
                  rw [hs] at h
                  dsimp only at h ⊢
                  simp only [Except.ok.injEq, AnalyzeCallResponse.mk.injEq] at h
                  obtain ⟨h1, h2⟩ := h
                  subst h1
                  subst h2
                  exact ⟨rfl, hs⟩

/-- Environment whose LLM oracle succeeds immediately but whose store
raises on every insert. -/
def envDbDown : Env := ⟨true, oracleOk, storeDown⟩

/-- Witness for C4: a concrete insert failure after a successful
extraction, and a concrete 200 response implying the successful
insert. -/
theorem response_only_after_successful_insert_witness :
    (analyze_call ⟨"hello"⟩ envDbDown).result =
      .error ⟨500, "connection refused"⟩ ∧
    ((analyze_call ⟨"hello"⟩ envHappy).storeQueries =
      [mkInsertQuery (pyStrip "hello") sampleInsight] ∧
    envHappy.storeOracle (mkInsertQuery (pyStrip "hello") sampleInsight) =
      .ok 7) :=
  ⟨response_only_after_successful_insert.1 "hello" envDbDown sampleInsight 1
      "connection refused" rfl rfl rfl,
    response_only_after_successful_insert.2 ⟨"hello"⟩ envHappy
      ⟨7, sampleInsight⟩ rfl⟩

/-- C5 counterexample: the schema does not reject
`agent_performance_rating` values outside 1-5 — a raw object carrying
rating 6 validates successfully, so not every accepted insight has a
rating within 1-5. -/
theorem rating_range_not_enforced_cex :
    model_validate (toObj { sampleInsight with agent_performance_rating := 6 }) =
      some { sampleInsight with agent_performance_rating := 6 } ∧
    ¬(1 ≤ ({ sampleInsight with agent_performance_rating := 6 } :
          CallInsight).agent_performance_rating ∧
      ({ sampleInsight with agent_performance_rating := 6 } :
          CallInsight).agent_performance_rating ≤ 5) := by
  exact ⟨rfl, by decide⟩

/-- C5 amended: `agent_performance_rating` is declared as a plain
integer with no range constraint, so validation accepts any integer
value for it, including values outside 1-5; the 1-5 range exists only
as prompt guidance. -/
theorem rating_any_int_accepted (c : CallInsight) (r : Int) :
    model_validate (toObj { c with agent_performance_rating := r }) =
      some { c with agent_performance_rating := r } :=
  model_validate_toObj _

/-- C6 counterexample: at shutdown with both handles set, the code does
not release the LLM client first — the observed order is the database
pool first, then the LLM client. -/
theorem shutdown_order_cex :
    lifespanShutdown true true ≠
      [ShutdownEvent.closeLlmClient, ShutdownEvent.closeDbPool] ∧
    lifespanShutdown true true =
      [ShutdownEvent.closeDbPool, ShutdownEvent.closeLlmClient] := by
  decide

/-- C6 amended: at process shutdown the database pool is closed first
and the LLM client handle is released second; each release is guarded
only by the presence of its own handle, so either release is still
attempted when the other handle is missing. -/
theorem shutdown_db_pool_first_then_llm :
    lifespanShutdown true true =
      [ShutdownEvent.closeDbPool, ShutdownEvent.closeLlmClient] ∧
    lifespanShutdown false true = [ShutdownEvent.closeLlmClient] ∧
    lifespanShutdown true false = [ShutdownEvent.closeDbPool] ∧
    lifespanShutdown false false = [] := by
  decide

/-- C7: the prompt's field definitions, the `CallInsight` model, and the
`call_records` table all follow the same rich 11-field variant: the
prompt lists exactly the model's fields, the table's columns are exactly
the id and transcript columns plus one column per model field, and the
model's canonical JSON form carries exactly those field names. -/
theorem prompt_schema_table_fields_consistent :
    promptFieldDefinitions = callInsightFields ∧
    callRecordsColumns = ["id", "transcript"] ++ callInsightFields ∧
    (∀ c : CallInsight, (toObj c).map Prod.fst = callInsightFields) := by
  exact ⟨rfl, rfl, fun c => rfl⟩

/-- Running the schema-ensure operation always succeeds and leaves the
table present. -/
theorem ensureSchema_total (s : StoreState) :
    ∃ s', ensureSchema s = .ok s' ∧ s'.callRecordsTable.isSome := by
  obtain ⟨tbl⟩ := s
  cases tbl with
  | none => exact ⟨⟨some callRecordsColumns⟩, rfl, rfl⟩
  | some cols => exact ⟨⟨some cols⟩, rfl, rfl⟩

/-- Once the table exists, the schema-ensure operation is a no-op that
raises no error. -/
theorem ensureSchema_noop (s : StoreState)
    (h : s.callRecordsTable.isSome) : ensureSchema s = .ok s := by
  obtain ⟨tbl⟩ := s
  cases tbl with
  | none => simp at h
  | some cols => rfl

/-- Iterating the schema-ensure operation on a store whose table exists
changes nothing. -/
theorem ensureSchemaN_noop (n : Nat) (s : StoreState)
    (h : s.callRecordsTable.isSome) : ensureSchemaN n s = .ok s := by
  induction n with
  | zero => rfl
  | succ m ih =>
      show (match ensureSchema s with
        | .error e => Except.error e
        | .ok s' => ensureSchemaN m s') = .ok s
      rw [ensureSchema_noop s h]
      exact ih

/-- C8: the schema-ensure operation is idempotent — it always succeeds,
leaves the table present, running it again on the resulting store is a
no-op that raises no error, and running it any positive number of times
is equivalent to running it once. -/
theorem ensureSchema_idempotent :
    (∀ s : StoreState, ∃ s' : StoreState,
        ensureSchema s = .ok s' ∧ s'.callRecordsTable.isSome ∧
        ensureSchema s' = .ok s') ∧
    (∀ (s : StoreState) (n : Nat), 1 ≤ n →
        ensureSchemaN n s = ensureSchema s) := by
  constructor
  · intro s
    obtain ⟨s', h1, h2⟩ := ensureSchema_total s
    exact ⟨s', h1, h2, ensureSchema_noop s' h2⟩
  · intro s n hn
    obtain ⟨m, rfl⟩ : ∃ m, n = m + 1 := ⟨n - 1, by omega⟩
    obtain ⟨s', h1, h2⟩ := ensureSchema_total s
    calc ensureSchemaN (m + 1) s = ensureSchemaN m s' := by
          show (match ensureSchema s with
            | .error e => Except.error e
            | .ok s' => ensureSchemaN m s') = _
          rw [h1]
      _ = .ok s' := ensureSchemaN_noop m s' h2
      _ = ensureSchema s := h1.symm

/-- Witness for C8: five runs on an empty store equal one run, which
creates the table. -/
theorem ensureSchema_idempotent_witness :
    ensureSchemaN 5 ⟨none⟩ = ensureSchema ⟨none⟩ ∧
    ensureSchema ⟨none⟩ = .ok ⟨some callRecordsColumns⟩ :=
  ⟨ensureSchema_idempotent.2 ⟨none⟩ 5 (by decide), rfl⟩

/-- Every query the handler submits to the store is the fixed insert for
the stripped transcript and some insight. -/
theorem storeQueries_shape (payload : TranscriptInput) (env : Env) :
    (analyze_call payload env).storeQueries = [] ∨
    ∃ c, (analyze_call payload env).storeQueries =
        [mkInsertQuery (pyStrip payload.transcript) c] := by
  cases hb : env.dbPoolInitialized with
  | false =>
      left
      unfold analyze_call
      rw [hb]
      simp
  | true =>
      by_cases ht : pyStrip payload.transcript = ""
      · left
        unfold analyze_call
        rw [hb]
        simp [ht]
      · rw [analyze_call_pipeline payload env hb ht]
        rcases hg : generate_insights (pyStrip payload.transcript)
            env.llmOracle with ⟨res, n⟩
        cases res with
        | error e => left; rfl
        | ok c =>
            dsimp only
            cases hs : env.storeOracle
                (mkInsertQuery (pyStrip payload.transcript) c) with
            | error e => right; exact ⟨c, rfl⟩
            | ok rid => right; exact ⟨c, rfl⟩

/-- C9: the insert uses parameter binding only: the SQL text submitted
to the store is a fixed constant independent of the transcript and the
insight values, with all twelve values passed exclusively as bound
parameters, and every query the handler ever submits has that constant
text and twelve parameters. -/
theorem insert_uses_fixed_constant_sql :
    (∀ (t1 t2 : String) (i1 i2 : CallInsight),
        (mkInsertQuery t1 i1).text = (mkInsertQuery t2 i2).text) ∧
    (∀ (t : String) (i : CallInsight),
        (mkInsertQuery t i).text = insertSQL ∧
        (mkInsertQuery t i).params = insertParams t i ∧
        (insertParams t i).length = 12) ∧
    (∀ (payload : TranscriptInput) (env : Env) (q : SQLQuery),
        q ∈ (analyze_call payload env).storeQueries →
        q.text = insertSQL ∧ q.params.length = 12) := by
  refine ⟨fun t1 t2 i1 i2 => rfl, fun t i => ⟨rfl, rfl, rfl⟩, ?_⟩
  intro payload env q hq
  rcases storeQueries_shape payload env with h | ⟨c, h⟩
  · rw [h] at hq
    simp at hq
  · rw [h] at hq
    simp only [List.mem_singleton] at hq
    subst hq
    exact ⟨rfl, rfl⟩

set_option maxRecDepth 65536 in
/-- Witness for C9: the query submitted by a concrete happy-path request
has the constant text and twelve bound parameters. -/
theorem insert_uses_fixed_constant_sql_witness :
    (mkInsertQuery "hello" sampleInsight).text = insertSQL ∧
    (mkInsertQuery "hello" sampleInsight).params.length = 12 :=
  insert_uses_fixed_constant_sql.2.2 ⟨"hello"⟩ envHappy
    (mkInsertQuery "hello" sampleInsight) (by decide)

set_option maxRecDepth 8192 in
/-- C10: `non_payment_reason` is the only optional field of
`CallInsight`: a raw object omitting it validates with
`non_payment_reason = none`, omitting any of the other ten fields makes
validation fail, and inside the extraction client a validation failure
counts as a failed attempt. -/
theorem non_payment_reason_only_optional :
    (∀ c : CallInsight,
        model_validate (objDrop (toObj c) "non_payment_reason") =
          some { c with non_payment_reason := none }) ∧
    (∀ (c : CallInsight) (f : String), f ∈ requiredFieldNames →
        model_validate (objDrop (toObj c) f) = none) ∧
    (∀ obj : RawObject, model_validate obj = none →
        attemptResult (.ok (.raw obj)) =
          .error "CallInsight validation failed") := by
  refine ⟨?_, ?_, ?_⟩
  · intro c
    obtain ⟨pp, om, ko, ci, npr, ss, se, hf, apr, ar, sm⟩ := c
    cases ss <;> cases se <;> cases npr <;> rfl
  · intro c f hf
    obtain ⟨pp, om, ko, ci, npr, ss, se, hf2, apr, ar, sm⟩ := c
    fin_cases hf <;> cases ss <;> cases se <;> cases npr <;> rfl
  · intro obj h
    have hstep : attemptResult (.ok (.raw obj)) =
        match model_validate obj with
        | some c => Except.ok c
        | none => Except.error "CallInsight validation failed" := rfl
    rw [hstep, h]

/-- Witness for C10: dropping `non_payment_reason` from a concrete
object validates with `none`; dropping `summary` fails validation and
counts as a failed attempt. -/
theorem non_payment_reason_only_optional_witness :
    model_validate (objDrop (toObj sampleInsight) "non_payment_reason") =
      some { sampleInsight with non_payment_reason := none } ∧
    model_validate (objDrop (toObj sampleInsight) "summary") = none ∧
    attemptResult (.ok (.raw (objDrop (toObj sampleInsight) "summary"))) =
      .error "CallInsight validation failed" :=
  ⟨non_payment_reason_only_optional.1 sampleInsight,
    non_payment_reason_only_optional.2.1 sampleInsight "summary" (by decide),
    non_payment_reason_only_optional.2.2 _
      (non_payment_reason_only_optional.2.1 sampleInsight "summary"
        (by decide))⟩

end InsightService
